import Mathlib

/-!
Verification of the Tuya-Cloud-to-MQTT bridge (`tuya_cloud_mqtt_all.py`).

The script is embedded shallowly: the MQTT callback `on_message` and the
main polling loop become pure Lean functions whose outputs record the
observable effects (dispatched cloud commands, MQTT publishes, MongoDB
inserts, the global `din_rail_is_on` flag).  External collaborators
(`cloud.sendcommand`, `json.loads`, `cloud.getstatus`, `collection`)
are passed in as explicit parameters describing their responses.
-/

namespace TuyaBridge

/-- Model of Python `s.upper()` (character-wise upper-casing). -/
def upperStr (s : String) : String := ⟨s.data.map Char.toUpper⟩

/-- Helper for `pySplit`, walking the character list. -/
def splitCharAux (c : Char) : List Char → List String
  | [] => [""]
  | x :: xs =>
    let rest := splitCharAux c xs
    if x = c then "" :: rest
    else
      match rest with
      | [] => [⟨[x]⟩]
      | r :: rs => ⟨x :: r.data⟩ :: rs

/-- Model of Python `s.split(c)` for a one-character separator:
`"a/b/c" ↦ ["a","b","c"]`, keeping empty fields. -/
def pySplit (s : String) (c : Char) : List String := splitCharAux c s.data

/-- Model of Python `s.startswith(p)`. -/
def pyStartsWith (s p : String) : Bool := p.data.isPrefixOf s.data

/-- Python scalar values carried in device status items, command values and
JSON object fields: `bool`, a number, or a string.  Numbers are modelled as
rationals (the script divides by `10.0` and `1000.0`). -/
inductive Scalar where
  | bool (b : Bool)
  | num (q : ℚ)
  | str (s : String)
deriving DecidableEq, Repr

/-- Model of Python `str(...)` on a numeric value (digits, never letters). -/
def numStr (q : ℚ) : String := toString q

/-- Model of Python `str(v)` on a scalar. -/
def Scalar.pyStr : Scalar → String
  | .bool b => if b then "True" else "False"
  | .num q => numStr q
  | .str s => s

/-- Python truthiness of a scalar (`not v` is its negation). -/
def Scalar.pyTruthy : Scalar → Bool
  | .bool b => b
  | .num q => q ≠ 0
  | .str s => s ≠ ""

/-- One Tuya command item `{'code': ..., 'value': ...}`. -/
structure DataPoint where
  code : String
  value : Scalar
deriving DecidableEq, Repr

/-- An MQTT publish payload.  `raw` is the plain string the script passes
to `publish` on the per-code state topics; the other constructors mirror,
field by field, the dict literals the script serializes with `json.dumps`
(the serialized text itself is inspected by no claim, so the publish
carries the structured value).
* `respSuccessSingle`: `{"status": "success", "msg": ..., "code": code,
  "value": payload}` (CASE 1 success).
* `respErrorSingle`: `{"status": "error", "msg": ..., "result": result}`
  (CASE 1 failure; the opaque cloud `result` dict is behind `send`).
* `respSuccessBatch`: `{"status": "success", "msg": ..., "cmd":
  command_list}` (CASE 2 success).
* `respErrorBatch`: `{"status": "error", "msg": ..., "result": result}`
  (CASE 2 failure).
* `telemetry`: `{"name", "id", "data", "timestamp", "api_t"}`.
* `discovery`: `{"name", "unique_id", "state_topic", "command_topic",
  "device": {"identifiers": [id], "name", "manufacturer": "Tuya"}}`. -/
inductive Payload where
  | raw (s : String)
  | respSuccessSingle (code value : String)
  | respErrorSingle
  | respSuccessBatch (cmd : List DataPoint)
  | respErrorBatch
  | telemetry (name id : String) (data : List (String × Scalar))
      (timestamp : ℤ) (apiT : ℚ)
  | discovery (name uniqueID stateTopic commandTopic : String)
      (identifiers : List String) (deviceName manufacturer : String)
deriving DecidableEq, Repr

/-- One `mqtt_client.publish(topic, payload, retain=...)` call. -/
structure Publish where
  topic : String
  payload : Payload
  retain : Bool
deriving DecidableEq, Repr

/-- One `cloud.sendcommand(device_id, {'commands': items})` call. -/
structure Command where
  deviceID : String
  items : List DataPoint
deriving DecidableEq, Repr

/-- `MQTT_TOPIC_PREFIX` in the source: the hard-coded root `"tuya"`. -/
def TOPIC_ROOT : String := "tuya"

/-- Result of `json.loads(payload)` when it succeeds: either a JSON object
(dict) with scalar fields, or some other JSON value (list, number, ...),
on which the script's `data.items()` raises and the outer handler
swallows the error. -/
inductive PyVal where
  | obj (kvs : List (String × Scalar))
  | other
deriving DecidableEq, Repr

/-- The CASE 1 payload mapping: `payload.upper() == "ON"` when the upper
case form is ON or OFF, otherwise the raw string passes through. -/
def singleValue (payload : String) : Scalar :=
  if upperStr payload = "ON" ∨ upperStr payload = "OFF" then
    .bool (upperStr payload = "ON")
  else
    .str payload

/-- The CASE 2 value mapping:
`val = v; if str(v).upper() == "ON": val = True; if str(v).upper() ==
"OFF": val = False`. -/
def batchValue (v : Scalar) : Scalar :=
  if upperStr v.pyStr = "ON" then Scalar.bool true
  else if upperStr v.pyStr = "OFF" then Scalar.bool false
  else v

/-- The CASE 2 loop over `data.items()`: keep keys starting with
`switch` or `countdown`, mapping values through `batchValue`. -/
def batchItems : List (String × Scalar) → List DataPoint
  | [] => []
  | (k, v) :: rest =>
    if pyStartsWith k "switch" || pyStartsWith k "countdown" then
      ⟨k, batchValue v⟩ :: batchItems rest
    else
      batchItems rest

/-- The optimistic-echo payload of the batch branch:
`"ON" if c_val is True else "OFF" if c_val is False else str(c_val)`. -/
def echoValue : Scalar → String
  | .bool true => "ON"
  | .bool false => "OFF"
  | v => v.pyStr

/-- The `on_message` MQTT callback.  `send dev items` models
`cloud.sendcommand(dev, {'commands': items}).get('success')`;
`jsonLoads` models `json.loads` (`none` = `json.JSONDecodeError`).
Returns the list of dispatched cloud commands and the list of MQTT
publishes, in order. -/
def on_message (send : String → List DataPoint → Bool)
    (jsonLoads : String → Option PyVal)
    (topic payload : String) : List Command × List Publish :=
  let parts := pySplit topic '/'
  if parts.length ≥ 4 then
    -- CASE 1: tuya/{device_id}/{code}/set
    let device_id := parts[1]!
    let code := parts[2]!
    let dp : DataPoint := ⟨code, singleValue payload⟩
    let success := send device_id [dp]
    let resp_topic := TOPIC_ROOT ++ "/" ++ device_id ++ "/response"
    if success then
      let state_val := if upperStr payload = "ON" then "ON" else "OFF"
      ([⟨device_id, [dp]⟩],
       [⟨resp_topic, .respSuccessSingle code payload, false⟩,
        ⟨TOPIC_ROOT ++ "/" ++ device_id ++ "/" ++ code ++ "/state",
         .raw state_val, true⟩])
    else
      ([⟨device_id, [dp]⟩], [⟨resp_topic, .respErrorSingle, false⟩])
  else if parts.length = 3 ∧ parts[2]! = "set" then
    -- CASE 2: tuya/{device_id}/set with a JSON payload
    let device_id := parts[1]!
    match jsonLoads payload with
    | none => ([], [])            -- json.JSONDecodeError: logged only
    | some .other => ([], [])     -- data.items() raises; outer handler logs
    | some (.obj kvs) =>
      let command_list := batchItems kvs
      if command_list.isEmpty then
        ([], [])                  -- "No valid commands found": logged only
      else
        let success := send device_id command_list
        let resp_topic := TOPIC_ROOT ++ "/" ++ device_id ++ "/response"
        if success then
          ([⟨device_id, command_list⟩],
           ⟨resp_topic, .respSuccessBatch command_list, false⟩ ::
           command_list.map (fun cmd =>
             ⟨TOPIC_ROOT ++ "/" ++ device_id ++ "/" ++ cmd.code ++ "/state",
              .raw (echoValue cmd.value), true⟩))
        else
          ([⟨device_id, command_list⟩], [⟨resp_topic, .respErrorBatch, false⟩])
  else
    ([], [])

/-! ## The main polling loop -/

/-- The inline scaling logic of the main loop, on numeric raw values:
`cur_voltage` and `cur_power` divide by 10, `add_ele` divides by 1000,
every other code passes through unchanged.  (This is the spec's
`scale(code, rawValue)` contract; it is deterministic and total because
it is a Lean function.) -/
def scale (code : String) (rawValue : ℚ) : ℚ :=
  if code = "cur_voltage" then rawValue / 10
  else if code = "cur_power" then rawValue / 10
  else if code = "add_ele" then rawValue / 1000
  else rawValue

/-- Scaling lifted to scalars: the source divides `item['value']` only
for the three numeric codes; boolean and string values arise only at
non-scaling codes and pass through. -/
def scaleScalar (code : String) : Scalar → Scalar
  | .num q => .num (scale code q)
  | v => v

/-- Value formatting before the per-code publish:
`"ON"/"OFF"` for booleans, `str(value)` otherwise. -/
def formatValue : Scalar → String
  | .bool b => if b then "ON" else "OFF"
  | v => v.pyStr

/-- Python dict assignment `d[k] = v`: replace an existing binding in
place, else append (insertion order preserved). -/
def pyDictInsert : List (String × Scalar) → String → Scalar → List (String × Scalar)
  | [], k, v => [(k, v)]
  | (k', v') :: rest, k, v =>
    if k' = k then (k, v) :: rest else (k', v') :: pyDictInsert rest k v

/-- Python `d.get(k)`: the binding for `k`, if any. -/
def dictGet (d : List (String × Scalar)) (k : String) : Option Scalar :=
  (d.find? (fun kv => kv.1 = k)).map (·.2)

/-- One entry of the `status_list` returned by `cloud.getstatus`:
`some` when the item is a dict containing `'code'` (carrying its code
and value), `none` otherwise (the loop skips it). -/
abbrev StatusItem := Option DataPoint

/-- What `cloud.getstatus(device_id)` does for one device in one cycle:
raise an exception, return a dict with a `'result'` list (and cloud
timestamp `t`), or return anything else (no dict, or no `'result'`). -/
inductive GetStatusOutcome where
  | throws
  | ok (result : List StatusItem) (t : ℚ)
  | malformed
deriving DecidableEq, Repr

/-- One device entry of the startup `devices` list, together with the
environment's responses for it in one poll cycle: `id = device.get('id')`,
`name = device.get('name', 'Unknown')`, the `getstatus` outcome, and
whether `collection.insert_one` succeeds if it is attempted. -/
structure DeviceInput where
  id : Option String
  name : String
  status : GetStatusOutcome
  insertOk : Bool
deriving DecidableEq, Repr

/-- One MongoDB document as built at the insert site (the
`datetime.now()` timestamp and constant `source` tag are claim-inert
and omitted from the record). -/
structure Doc where
  device_id : String
  device_name : String
  status : List (String × Scalar)
deriving DecidableEq, Repr

/-- The governing device's hard-coded display name. -/
def GOV_NAME : String := "Din Rail Wi-Fi Switch with metering"

/-- The dependent device's hard-coded display name. -/
def DEP_NAME : String := "WiFi Smart 2CH Touch Switch"

/-- The `din_rail_is_on` update: when the device is the governing one and
`device_data.get('switch')` is not `None`, the flag becomes that value
(whatever scalar it is); otherwise it is unchanged.  This is the only
assignment to `din_rail_is_on` in the source. -/
def updateDin (name : String) (device_data : List (String × Scalar))
    (din : Scalar) : Scalar :=
  if name = GOV_NAME then
    match dictGet device_data "switch" with
    | some v => v
    | none => din
  else din

/-- The `should_log` computation, evaluated after the update: the
governing device and the dependent device log only when the (updated)
flag is truthy; every other device logs. -/
def shouldLog (name : String) (din : Scalar) : Bool :=
  if name = GOV_NAME then din.pyTruthy
  else if name = DEP_NAME then din.pyTruthy
  else true

/-- The inner `for item in status_list` loop: skip non-dict items and
items without `'code'`; scale each value, store it in `device_data`, and
publish it (retained) on `tuya/{device_id}/{code}/state`. -/
def processItems (device_id : String) :
    List StatusItem → List (String × Scalar) →
    List (String × Scalar) × List Publish
  | [], device_data => (device_data, [])
  | none :: rest, device_data => processItems device_id rest device_data
  | some item :: rest, device_data =>
    let value := scaleScalar item.code item.value
    let device_data' := pyDictInsert device_data item.code value
    let pub : Publish :=
      ⟨TOPIC_ROOT ++ "/" ++ device_id ++ "/" ++ item.code ++ "/state",
       .raw (formatValue value), true⟩
    let r := processItems device_id rest device_data'
    (r.1, pub :: r.2)

/-- The body run for a device whose `getstatus` returned a dict with
`'result'`: per-code publishes, the retained telemetry and discovery
publishes, then (only when `collection is not None`) the governance
update, the logging gate, and the guarded insert (whose own failure is
caught).  Returns the publishes, the successfully inserted documents and
the new `din_rail_is_on`.  `now` models `int(time.time())`. -/
def handleGood (hasCollection : Bool) (now : ℤ) (din : Scalar)
    (device_id device_name : String) (result : List StatusItem) (t : ℚ)
    (insertOk : Bool) : List Publish × List Doc × Scalar :=
  let pr := processItems device_id result []
  let device_data := pr.1
  let codePubs := pr.2
  let full_topic := TOPIC_ROOT ++ "/" ++ device_id ++ "/telemetry"
  let telemetryPub : Publish :=
    ⟨full_topic, .telemetry device_name device_id device_data now t, true⟩
  let discoveryPub : Publish :=
    ⟨"discovery/device/" ++ device_id ++ "/config",
     .discovery device_name device_id full_topic
       (TOPIC_ROOT ++ "/" ++ device_id ++ "/set") [device_id] device_name
       "Tuya", true⟩
  let pubs := codePubs ++ [telemetryPub, discoveryPub]
  if hasCollection then
    let din' := updateDin device_name device_data din
    let docs :=
      if shouldLog device_name din' then
        if insertOk then [⟨device_id, device_name, device_data⟩] else []
      else []
    (pubs, docs, din')
  else
    (pubs, [], din)

/-- One poll cycle: iterate the startup device list in order.  Devices
with a falsy id (`None` or `""`) are skipped, a `getstatus` exception
aborts the remainder of the cycle (it propagates to the per-cycle
handler, which only logs), a malformed `getstatus` response skips the
device, and a good response runs `handleGood`, threading
`din_rail_is_on`. -/
def runCycle (hasCollection : Bool) (now : ℤ) :
    Scalar → List DeviceInput → List Publish × List Doc × Scalar
  | din, [] => ([], [], din)
  | din, d :: rest =>
    match d.id with
    | none => runCycle hasCollection now din rest
    | some device_id =>
      if device_id = "" then runCycle hasCollection now din rest
      else
        match d.status with
        | .throws => ([], [], din)
        | .malformed => runCycle hasCollection now din rest
        | .ok result t =>
          let r := handleGood hasCollection now din device_id d.name result t
            d.insertOk
          let rest' := runCycle hasCollection now r.2.2 rest
          (r.1 ++ rest'.1, r.2.1 ++ rest'.2.1, rest'.2.2)

/-- Successive poll cycles of the outer `while True` loop, threading
`din_rail_is_on` across cycles; returns each cycle's publishes and
inserted documents, and the final flag. -/
def runCycles (hasCollection : Bool) (now : ℤ) :
    Scalar → List (List DeviceInput) →
    List (List Publish × List Doc) × Scalar
  | din, [] => ([], din)
  | din, c :: cs =>
    let r := runCycle hasCollection now din c
    let rest' := runCycles hasCollection now r.2.2 cs
    ((r.1, r.2.1) :: rest'.1, rest'.2)

/-- The startup value of `din_rail_is_on`: `True`. -/
def din_rail_is_on_init : Scalar := .bool true

/-! ## Spec-side topic shapes (for the CommandRouter claims) -/

/-- The spec's single-attribute command shape `prefix/{deviceID}/{code}/set`
(prefix is the hard-coded `"tuya"`). -/
def isSingleSetShape (topic : String) : Bool :=
  let ps := pySplit topic '/'
  ps.length == 4 && ps[0]! == TOPIC_ROOT && ps[3]! == "set"

/-- The spec's batch command shape `prefix/{deviceID}/set`. -/
def isBatchSetShape (topic : String) : Bool :=
  let ps := pySplit topic '/'
  ps.length == 3 && ps[0]! == TOPIC_ROOT && ps[2]! == "set"

/-! ## Helper lemmas -/

/-- The batch key filter: keys with prefixes `switch` or `countdown`. -/
def recognizedKey (kv : String × Scalar) : Bool :=
  pyStartsWith kv.1 "switch" || pyStartsWith kv.1 "countdown"

lemma batchItems_eq (kvs : List (String × Scalar)) :
    batchItems kvs =
      (kvs.filter recognizedKey).map (fun kv => ⟨kv.1, batchValue kv.2⟩) := by
  induction kvs with
  | nil => rfl
  | cons kv rest ih =>
    obtain ⟨k, v⟩ := kv
    by_cases h : (pyStartsWith k "switch" || pyStartsWith k "countdown") = true
    · simp [batchItems, List.filter_cons, recognizedKey, h, ih]
    · simp [batchItems, List.filter_cons, recognizedKey, h, ih]

/-! ## C7: malformed batch JSON is discarded silently -/

/-- C7: for every message on the batch topic `prefix/{deviceID}/set`
whose payload is not valid JSON (`json.loads` raises), `on_message`
dispatches no command and publishes nothing on any topic. -/
theorem C7_malformed_batch_discarded
    (send : String → List DataPoint → Bool)
    (jsonLoads : String → Option PyVal) (topic payload t0 dev : String)
    (hsplit : pySplit topic '/' = [t0, dev, "set"])
    (hjson : jsonLoads payload = none) :
    on_message send jsonLoads topic payload = ([], []) := by
  simp [on_message, hsplit, hjson]

/-- Witness for C7 at the concrete topic `tuya/dev1/set` and a
non-JSON payload. -/
theorem C7_malformed_batch_discarded_witness :
    on_message (fun _ _ => true) (fun _ => none) "tuya/dev1/set" "oops" =
      ([], []) :=
  C7_malformed_batch_discarded (fun _ _ => true) (fun _ => none)
    "tuya/dev1/set" "oops" "tuya" "dev1" (by decide) rfl

/-! ## C8: which topic shapes are ignored -/

/-- C8 counterexample: the topic `tuya/dev1/switch/state` matches neither
command shape (it does not end in `set`), yet `on_message` dispatches a
command for it and publishes a response and a state echo — CASE 1 fires
on any topic with at least four segments without checking the last one. -/
theorem C8_counterexample :
    isSingleSetShape "tuya/dev1/switch/state" = false ∧
    isBatchSetShape "tuya/dev1/switch/state" = false ∧
    (on_message (fun _ _ => true) (fun _ => none)
        "tuya/dev1/switch/state" "ON").1 =
      [⟨"dev1", [⟨"switch", Scalar.bool true⟩]⟩] ∧
    (on_message (fun _ _ => true) (fun _ => none)
        "tuya/dev1/switch/state" "ON").2 ≠ [] := by
  refine ⟨by decide, by decide, by decide, by decide⟩

/-- C8 amended: `on_message` ignores (no dispatch, no publish) exactly
the topics with at most two segments and the three-segment topics whose
last segment is not `set`; every topic with at least four segments is
treated as a single-attribute command — its second and third segments
become device and code — regardless of its first or last segment. -/
theorem C8_amended_ignored_shapes :
    (∀ (send : String → List DataPoint → Bool)
       (jsonLoads : String → Option PyVal) (topic payload : String),
      ((pySplit topic '/').length ≤ 2 ∨
        ((pySplit topic '/').length = 3 ∧ (pySplit topic '/')[2]! ≠ "set")) →
      on_message send jsonLoads topic payload = ([], [])) ∧
    (∀ (send : String → List DataPoint → Bool)
       (jsonLoads : String → Option PyVal) (topic payload : String),
      (pySplit topic '/').length ≥ 4 →
      (on_message send jsonLoads topic payload).1 =
        [⟨(pySplit topic '/')[1]!,
          [⟨(pySplit topic '/')[2]!, singleValue payload⟩]⟩]) := by
  constructor
  · intro send jsonLoads topic payload h
    have h4 : ¬ (pySplit topic '/').length ≥ 4 := by
      rcases h with h | ⟨h3, _⟩ <;> omega
    have h3 : ¬ ((pySplit topic '/').length = 3 ∧
        (pySplit topic '/')[2]! = "set") := by
      rcases h with h | ⟨h3, hne⟩
      · rintro ⟨hl, _⟩; omega
      · rintro ⟨_, hset⟩; exact hne hset
    simp [on_message, h4, h3]
  · intro send jsonLoads topic payload h4
    rcases hsend : send (pySplit topic '/')[1]!
        [⟨(pySplit topic '/')[2]!, singleValue payload⟩] with _ | _ <;>
      simp [on_message, h4, hsend]

/-- Witness for C8 amended: a two-segment topic and a three-segment
topic not ending in `set` are ignored; a four-segment topic not ending
in `set` still dispatches. -/
theorem C8_amended_ignored_shapes_witness :
    on_message (fun _ _ => true) (fun _ => none) "tuya/dev1" "ON" =
      ([], []) ∧
    on_message (fun _ _ => true) (fun _ => none) "tuya/dev1/get" "ON" =
      ([], []) ∧
    (on_message (fun _ _ => true) (fun _ => none)
        "tuya/dev1/switch/state" "ON").1 =
      [⟨"dev1", [⟨"switch", singleValue "ON"⟩]⟩] := by
  refine ⟨?_, ?_, ?_⟩
  · exact C8_amended_ignored_shapes.1 _ _ "tuya/dev1" "ON" (by decide)
  · exact C8_amended_ignored_shapes.1 _ _ "tuya/dev1/get" "ON"
      (Or.inr (by decide))
  · have h := C8_amended_ignored_shapes.2 (fun _ _ => true) (fun _ => none)
      "tuya/dev1/switch/state" "ON" (by decide)
    rw [h]
    decide

/-! ## C6: batch command parsing -/

/-- C6: for a batch message on `prefix/{deviceID}/set` whose payload
parses as a JSON object, the dispatched command consists of exactly the
keys with prefixes `switch`/`countdown` (in payload order); each value
is mapped through the ON/OFF rule — on a string value, `true` when it
upper-cases to `"ON"`, `false` when to `"OFF"`, and the value itself
otherwise; when zero keys are recognized nothing is dispatched and
nothing is published. -/
theorem C6_batch_recognized_keys
    (send : String → List DataPoint → Bool)
    (jsonLoads : String → Option PyVal) (topic payload t0 dev : String)
    (kvs : List (String × Scalar))
    (hsplit : pySplit topic '/' = [t0, dev, "set"])
    (hjson : jsonLoads payload = some (.obj kvs)) :
    ((on_message send jsonLoads topic payload).1 =
      if kvs.filter recognizedKey = [] then []
      else [⟨dev, (kvs.filter recognizedKey).map
                    (fun kv => ⟨kv.1, batchValue kv.2⟩)⟩]) ∧
    (kvs.filter recognizedKey = [] →
      on_message send jsonLoads topic payload = ([], [])) ∧
    (∀ s : String, batchValue (.str s) =
      if upperStr s = "ON" then .bool true
      else if upperStr s = "OFF" then .bool false
      else .str s) := by
  refine ⟨?_, ?_, fun s => rfl⟩
  · by_cases hrec : kvs.filter recognizedKey = []
    · have hempty : batchItems kvs = [] := by rw [batchItems_eq, hrec]; rfl
      simp [on_message, hsplit, hjson, hempty, hrec]
    · have hne : batchItems kvs ≠ [] := by
        rw [batchItems_eq]
        simpa using hrec
      simp [on_message, hsplit, hjson, List.isEmpty_iff, hne,
        batchItems_eq, hrec]
      split <;> rfl
  · intro hrec
    have hempty : batchItems kvs = [] := by rw [batchItems_eq, hrec]; rfl
    simp [on_message, hsplit, hjson, hempty]

/-- Witness for C6: payload `{"switch_1": "ON", "brightness": 50}`
dispatches only `switch_1 = true`; a payload with no recognized key
dispatches and publishes nothing. -/
theorem C6_batch_recognized_keys_witness :
    (on_message (fun _ _ => true)
        (fun _ => some (.obj [("switch_1", .str "ON"),
                              ("brightness", .num 50)]))
        "tuya/dev1/set" "p").1 =
      [⟨"dev1", [⟨"switch_1", Scalar.bool true⟩]⟩] ∧
    on_message (fun _ _ => true)
        (fun _ => some (.obj [("brightness", .num 50)]))
        "tuya/dev1/set" "p" = ([], []) := by
  constructor
  · have h := (C6_batch_recognized_keys (fun _ _ => true)
      (fun _ => some (.obj [("switch_1", .str "ON"), ("brightness", .num 50)]))
      "tuya/dev1/set" "p" "tuya" "dev1"
      [("switch_1", .str "ON"), ("brightness", .num 50)]
      (by decide) rfl).1
    rw [h]
    decide
  · exact (C6_batch_recognized_keys (fun _ _ => true)
      (fun _ => some (.obj [("brightness", .num 50)]))
      "tuya/dev1/set" "p" "tuya" "dev1" [("brightness", .num 50)]
      (by decide) rfl).2.1 (by decide)

/-! ## C2: the optimistic state echo -/

/-- C2 counterexample: a successful single-attribute command on
`tuya/dev1/brightness/set` with payload `"50"` dispatches the value
`"50"`, but the optimistic echo published on
`tuya/dev1/brightness/state` is `"OFF"` — not the requested value —
because CASE 1 computes `"ON" if payload.upper() == "ON" else "OFF"`. -/
theorem C2_counterexample :
    on_message (fun _ _ => true) (fun _ => none)
        "tuya/dev1/brightness/set" "50" =
      ([⟨"dev1", [⟨"brightness", Scalar.str "50"⟩]⟩],
       [⟨"tuya/dev1/response", .respSuccessSingle "brightness" "50", false⟩,
        ⟨"tuya/dev1/brightness/state", .raw "OFF", true⟩]) ∧
    Payload.raw "OFF" ≠ Payload.raw (formatValue (Scalar.str "50")) := by
  refine ⟨by decide, by decide⟩

/-- C2 amended: on a successful dispatch the router publishes the
success response first and then the retained optimistic state echo; for
a single-attribute command the echo payload is `"ON"` when the payload
upper-cases to `"ON"` and `"OFF"` otherwise (so only ON/OFF-style
payloads echo the requested value), while for a batch command every
dispatched DataPoint is echoed with the value the command requested
(`"ON"`/`"OFF"` for booleans, its string form otherwise). -/
theorem C2_amended_optimistic_echo :
    (∀ (send : String → List DataPoint → Bool)
       (jsonLoads : String → Option PyVal)
       (topic payload t0 dev code t3 : String),
      pySplit topic '/' = [t0, dev, code, t3] →
      send dev [⟨code, singleValue payload⟩] = true →
      on_message send jsonLoads topic payload =
        ([⟨dev, [⟨code, singleValue payload⟩]⟩],
         [⟨TOPIC_ROOT ++ "/" ++ dev ++ "/response",
           .respSuccessSingle code payload, false⟩,
          ⟨TOPIC_ROOT ++ "/" ++ dev ++ "/" ++ code ++ "/state",
           .raw (if upperStr payload = "ON" then "ON" else "OFF"),
           true⟩])) ∧
    (∀ (send : String → List DataPoint → Bool)
       (jsonLoads : String → Option PyVal)
       (topic payload t0 dev : String) (kvs : List (String × Scalar)),
      pySplit topic '/' = [t0, dev, "set"] →
      jsonLoads payload = some (.obj kvs) →
      batchItems kvs ≠ [] →
      send dev (batchItems kvs) = true →
      on_message send jsonLoads topic payload =
        ([⟨dev, batchItems kvs⟩],
         ⟨TOPIC_ROOT ++ "/" ++ dev ++ "/response",
          .respSuccessBatch (batchItems kvs), false⟩ ::
         (batchItems kvs).map (fun cmd =>
           ⟨TOPIC_ROOT ++ "/" ++ dev ++ "/" ++ cmd.code ++ "/state",
            .raw (echoValue cmd.value), true⟩))) := by
  constructor
  · intro send jsonLoads topic payload t0 dev code t3 hsplit hsend
    simp [on_message, hsplit, hsend]
  · intro send jsonLoads topic payload t0 dev kvs hsplit hjson hne hsend
    simp [on_message, hsplit, hjson, List.isEmpty_iff, hne, hsend]

/-- Witness for C2 amended: `tuya/dev1/switch/set` with payload `"ON"`
yields the success response followed by the retained echo `"ON"`, and
the batch `{"switch_1": "ON"}` yields the response followed by the
retained echo `"ON"` on `tuya/dev1/switch_1/state`. -/
theorem C2_amended_optimistic_echo_witness :
    on_message (fun _ _ => true) (fun _ => none)
        "tuya/dev1/switch/set" "ON" =
      ([⟨"dev1", [⟨"switch", Scalar.bool true⟩]⟩],
       [⟨"tuya/dev1/response", .respSuccessSingle "switch" "ON", false⟩,
        ⟨"tuya/dev1/switch/state", .raw "ON", true⟩]) ∧
    on_message (fun _ _ => true)
        (fun _ => some (.obj [("switch_1", .str "ON")]))
        "tuya/dev1/set" "p" =
      ([⟨"dev1", [⟨"switch_1", Scalar.bool true⟩]⟩],
       [⟨"tuya/dev1/response",
         .respSuccessBatch [⟨"switch_1", Scalar.bool true⟩], false⟩,
        ⟨"tuya/dev1/switch_1/state", .raw "ON", true⟩]) := by
  constructor
  · have h := C2_amended_optimistic_echo.1 (fun _ _ => true) (fun _ => none)
      "tuya/dev1/switch/set" "ON" "tuya" "dev1" "switch" "set"
      (by decide) rfl
    rw [h]
    decide
  · have h := C2_amended_optimistic_echo.2 (fun _ _ => true)
      (fun _ => some (.obj [("switch_1", .str "ON")]))
      "tuya/dev1/set" "p" "tuya" "dev1" [("switch_1", .str "ON")]
      (by decide) rfl (by decide) (by decide)
    rw [h]
    decide

/-! ## C5: the scaling transform -/

lemma processItems_snd (dev : String) (items : List StatusItem)
    (data : List (String × Scalar)) :
    (processItems dev items data).2 =
      (items.filterMap id).map (fun dp =>
        ⟨TOPIC_ROOT ++ "/" ++ dev ++ "/" ++ dp.code ++ "/state",
         .raw (formatValue (scaleScalar dp.code dp.value)), true⟩) := by
  induction items generalizing data with
  | nil => rfl
  | cons it rest ih =>
    cases it with
    | none => simpa [processItems] using ih data
    | some dp => simp [processItems, ih]

lemma processItems_fst (dev : String) (items : List StatusItem)
    (data : List (String × Scalar)) :
    (processItems dev items data).1 =
      (items.filterMap id).foldl (fun d dp =>
        pyDictInsert d dp.code (scaleScalar dp.code dp.value)) data := by
  induction items generalizing data with
  | nil => rfl
  | cons it rest ih =>
    cases it with
    | none => simpa [processItems] using ih data
    | some dp => simp [processItems, ih]

/-- C5: the scaling transform divides `cur_voltage` and `cur_power` by
10 and `add_ele` by 1000, is the identity on every other code, is
idempotent on non-scaling codes, and the polling loop publishes and
stores in the device snapshot exactly the scaled values. -/
theorem C5_scale_contract :
    (∀ q : ℚ, scale "cur_voltage" q = q / 10) ∧
    (∀ q : ℚ, scale "cur_power" q = q / 10) ∧
    (∀ q : ℚ, scale "add_ele" q = q / 1000) ∧
    (∀ (code : String) (q : ℚ),
      code ∉ (["cur_voltage", "cur_power", "add_ele"] : List String) →
      scale code q = q) ∧
    (∀ (code : String) (q : ℚ),
      code ∉ (["cur_voltage", "cur_power", "add_ele"] : List String) →
      scale code (scale code q) = scale code q) ∧
    (∀ (dev : String) (items : List StatusItem)
       (data : List (String × Scalar)),
      (processItems dev items data).2 =
        (items.filterMap id).map (fun dp =>
          ⟨TOPIC_ROOT ++ "/" ++ dev ++ "/" ++ dp.code ++ "/state",
           .raw (formatValue (scaleScalar dp.code dp.value)), true⟩)) ∧
    (∀ (dev : String) (items : List StatusItem)
       (data : List (String × Scalar)),
      (processItems dev items data).1 =
        (items.filterMap id).foldl (fun d dp =>
          pyDictInsert d dp.code (scaleScalar dp.code dp.value)) data) := by
  refine ⟨fun q => rfl, fun q => rfl, fun q => rfl, ?_, ?_,
    processItems_snd, processItems_fst⟩
  · intro code q h
    simp only [List.mem_cons, List.not_mem_nil, or_false] at h
    push_neg at h
    obtain ⟨h1, h2, h3⟩ := h
    simp [scale, h1, h2, h3]
  · intro code q h
    simp only [List.mem_cons, List.not_mem_nil, or_false] at h
    push_neg at h
    obtain ⟨h1, h2, h3⟩ := h
    simp [scale, h1, h2, h3]

/-- Witness for C5 at concrete inputs: `switch` is a non-scaling code,
so `scale` is the identity and idempotent there; a concrete status list
is published scaled. -/
theorem C5_scale_contract_witness :
    scale "switch" 7 = 7 ∧
    scale "switch" (scale "switch" 7) = scale "switch" 7 ∧
    (processItems "dev1" [some ⟨"switch", .bool true⟩] []).2 =
      [⟨"tuya/dev1/switch/state", .raw "ON", true⟩] := by
  refine ⟨C5_scale_contract.2.2.2.1 "switch" 7 (by decide),
    C5_scale_contract.2.2.2.2.1 "switch" 7 (by decide), ?_⟩
  have h := C5_scale_contract.2.2.2.2.2.1 "dev1"
    [some ⟨"switch", .bool true⟩] []
  rw [h]
  decide

/-! ## Poller helper lemmas -/

lemma handleGood_fst (h : Bool) (now : ℤ) (din : Scalar)
    (device_id device_name : String) (result : List StatusItem) (t : ℚ)
    (ok : Bool) :
    (handleGood h now din device_id device_name result t ok).1 =
      (processItems device_id result []).2 ++
        [⟨TOPIC_ROOT ++ "/" ++ device_id ++ "/telemetry",
          .telemetry device_name device_id
            (processItems device_id result []).1 now t, true⟩,
         ⟨"discovery/device/" ++ device_id ++ "/config",
          .discovery device_name device_id
            (TOPIC_ROOT ++ "/" ++ device_id ++ "/telemetry")
            (TOPIC_ROOT ++ "/" ++ device_id ++ "/set") [device_id]
            device_name "Tuya", true⟩] := by
  cases h <;> rfl

lemma handleGood_docs (now : ℤ) (din : Scalar)
    (device_id device_name : String) (result : List StatusItem) (t : ℚ)
    (ok : Bool) :
    (handleGood true now din device_id device_name result t ok).2.1 =
      if shouldLog device_name
          (updateDin device_name (processItems device_id result []).1 din) then
        if ok then
          [⟨device_id, device_name, (processItems device_id result []).1⟩]
        else []
      else [] := rfl

lemma handleGood_din (now : ℤ) (din : Scalar)
    (device_id device_name : String) (result : List StatusItem) (t : ℚ)
    (ok : Bool) :
    (handleGood true now din device_id device_name result t ok).2.2 =
      updateDin device_name (processItems device_id result []).1 din := rfl

lemma runCycle_fst (now : ℤ) :
    ∀ (l : List DeviceInput) (h h' : Bool) (din din' : Scalar),
      (runCycle h now din l).1 = (runCycle h' now din' l).1 := by
  intro l
  induction l with
  | nil => intro h h' din din'; rfl
  | cons d rest ih =>
    intro h h' din din'
    obtain ⟨id, name, status, ok⟩ := d
    cases id with
    | none => simpa [runCycle] using ih h h' din din'
    | some i =>
      by_cases hi : i = ""
      · simpa [runCycle, hi] using ih h h' din din'
      · cases status with
        | throws => simp [runCycle, hi]
        | malformed => simpa [runCycle, hi] using ih h h' din din'
        | ok result t =>
          simp only [runCycle, hi, if_neg, ite_false]
          rw [handleGood_fst, handleGood_fst, ih h h' _ _]

lemma runCycle_cons_ok (h : Bool) (now : ℤ) (din : Scalar)
    (i name : String) (result : List StatusItem) (t : ℚ) (ok : Bool)
    (rest : List DeviceInput) (hi : i ≠ "") :
    runCycle h now din (⟨some i, name, .ok result t, ok⟩ :: rest) =
      ((handleGood h now din i name result t ok).1 ++
        (runCycle h now (handleGood h now din i name result t ok).2.2
          rest).1,
       (handleGood h now din i name result t ok).2.1 ++
        (runCycle h now (handleGood h now din i name result t ok).2.2
          rest).2.1,
       (runCycle h now (handleGood h now din i name result t ok).2.2
          rest).2.2) := by
  simp [runCycle, hi]

lemma runCycle_false (now : ℤ) :
    ∀ (l : List DeviceInput) (din : Scalar),
      runCycle false now din l = ((runCycle true now din l).1, [], din) := by
  intro l
  induction l with
  | nil => intro din; rfl
  | cons d rest ih =>
    intro din
    obtain ⟨id, name, status, ok⟩ := d
    cases id with
    | none => simpa [runCycle] using ih din
    | some i =>
      by_cases hi : i = ""
      · simpa [runCycle, hi] using ih din
      · cases status with
        | throws => simp [runCycle, hi]
        | malformed => simpa [runCycle, hi] using ih din
        | ok result t =>
          rw [runCycle_cons_ok false now din i name result t ok rest hi,
            runCycle_cons_ok true now din i name result t ok rest hi]
          have h22 : (handleGood false now din i name result t ok).2.2 =
              din := rfl
          have h21 : (handleGood false now din i name result t ok).2.1 =
              [] := rfl
          rw [h22, h21, ih din]
          refine Prod.ext ?_ (Prod.ext rfl rfl)
          show (handleGood false now din i name result t ok).1 ++
              (runCycle true now din rest).1 =
            (handleGood true now din i name result t ok).1 ++
              (runCycle true now
                (handleGood true now din i name result t ok).2.2 rest).1
          rw [handleGood_fst, handleGood_fst,
            runCycle_fst now rest true true din
              (handleGood true now din i name result t ok).2.2]

lemma runCycles_fst (now : ℤ) :
    ∀ (cs : List (List DeviceInput)) (h h' : Bool) (din din' : Scalar),
      (runCycles h now din cs).1.map Prod.fst =
        (runCycles h' now din' cs).1.map Prod.fst := by
  intro cs
  induction cs with
  | nil => intros; rfl
  | cons c cs ih =>
    intro h h' din din'
    simp only [runCycles, List.map_cons]
    rw [runCycle_fst now c h h' din din', ih h h' _ _]

lemma runCycles_false_snd (now : ℤ) :
    ∀ (cs : List (List DeviceInput)) (din : Scalar),
      (runCycles false now din cs).2 = din := by
  intro cs
  induction cs with
  | nil => intro din; rfl
  | cons c cs ih =>
    intro din
    simp only [runCycles, runCycle_false now c din]
    exact ih din

lemma runCycles_false_docs (now : ℤ) :
    ∀ (cs : List (List DeviceInput)) (din : Scalar),
      (runCycles false now din cs).1.map Prod.snd =
        cs.map (fun _ => ([] : List Doc)) := by
  intro cs
  induction cs with
  | nil => intro din; rfl
  | cons c cs ih =>
    intro din
    simp only [runCycles, runCycle_false now c din, List.map_cons]
    rw [ih din]

lemma runCycle_no_dep (now : ℤ) :
    ∀ (l : List DeviceInput) (din : Scalar),
      din.pyTruthy = false →
      (∀ d ∈ l, d.name ≠ GOV_NAME) →
      ∀ doc ∈ (runCycle true now din l).2.1, doc.device_name ≠ DEP_NAME := by
  intro l
  induction l with
  | nil => intro din _ _ doc hdoc; simp [runCycle] at hdoc
  | cons d rest ih =>
    intro din hdin hl doc hdoc
    obtain ⟨id, name, status, ok⟩ := d
    have hname : name ≠ GOV_NAME := hl _ (List.mem_cons_self _ _)
    have hrest : ∀ e ∈ rest, e.name ≠ GOV_NAME := fun e he =>
      hl e (List.mem_cons_of_mem _ he)
    cases id with
    | none =>
      exact ih din hdin hrest doc (by simpa [runCycle] using hdoc)
    | some i =>
      by_cases hi : i = ""
      · exact ih din hdin hrest doc (by simpa [runCycle, hi] using hdoc)
      · cases status with
        | throws => simp [runCycle, hi] at hdoc
        | malformed =>
          exact ih din hdin hrest doc (by simpa [runCycle, hi] using hdoc)
        | ok result t =>
          rw [runCycle_cons_ok true now din i name result t ok rest hi]
            at hdoc
          have hdin' :
              (handleGood true now din i name result t ok).2.2 = din := by
            rw [handleGood_din]
            simp [updateDin, hname]
          rw [hdin'] at hdoc
          simp only [List.mem_append] at hdoc
          rcases hdoc with hdoc | hdoc
          · rw [handleGood_docs] at hdoc
            by_cases hdep : name = DEP_NAME
            · rw [hdep] at hdoc
              have : shouldLog DEP_NAME
                  (updateDin DEP_NAME (processItems i result []).1 din) =
                  din.pyTruthy := by
                simp [updateDin, shouldLog, DEP_NAME, GOV_NAME]
              rw [this, hdin] at hdoc
              simp at hdoc
            · rcases Bool.eq_false_or_eq_true
                (shouldLog name
                  (updateDin name (processItems i result []).1 din)) with
                hsl | hsl
              · rw [hsl] at hdoc
                simp at hdoc
                rw [hdoc.2]
                simpa using hdep
              · rw [hsl] at hdoc; simp at hdoc
          · exact ih din hdin hrest doc hdoc

/-! ## C1: per-device failures inside a poll cycle -/

/-- C1 counterexample: the polling loop has no per-device handler for
`cloud.getstatus`; a registry exception for the first device propagates
to the per-cycle handler, so the second device — which on its own would
publish three messages and insert one document — produces nothing in
that cycle.  Only the `insert_one` call has a per-device `try/except`. -/
theorem C1_counterexample :
    runCycle true 0 din_rail_is_on_init
      [⟨some "r1", "RegDev", .throws, true⟩,
       ⟨some "d2", "Other", .ok [some ⟨"switch", .bool true⟩] 0, true⟩] =
      ([], [], din_rail_is_on_init) ∧
    (runCycle true 0 din_rail_is_on_init
      [⟨some "d2", "Other", .ok [some ⟨"switch", .bool true⟩] 0,
        true⟩]).1 ≠ [] ∧
    (runCycle true 0 din_rail_is_on_init
      [⟨some "d2", "Other", .ok [some ⟨"switch", .bool true⟩] 0,
        true⟩]).2.1 ≠ [] := by
  refine ⟨rfl, by decide, by decide⟩

/-- C1 amended: a sink-insert failure is caught per device — the failing
device's document is dropped but its own publishes and every remaining
device's processing are unchanged — while a registry `getstatus`
exception aborts the remainder of the cycle (the per-cycle handler only
logs, and polling resumes at the next interval). -/
theorem C1_amended_failure_scopes :
    (∀ (now : ℤ) (din : Scalar) (rest : List DeviceInput),
      runCycle true now din
        (⟨some "i1", "InsDev", .ok [some ⟨"switch", .bool true⟩] 0,
          false⟩ :: rest) =
      (⟨"tuya/i1/switch/state", .raw "ON", true⟩ ::
       ⟨"tuya/i1/telemetry",
        .telemetry "InsDev" "i1" [("switch", .bool true)] now 0, true⟩ ::
       ⟨"discovery/device/i1/config",
        .discovery "InsDev" "i1" "tuya/i1/telemetry" "tuya/i1/set"
          ["i1"] "InsDev" "Tuya", true⟩ ::
       (runCycle true now din rest).1,
       (runCycle true now din rest).2.1,
       (runCycle true now din rest).2.2)) ∧
    (∀ (now : ℤ) (din : Scalar) (rest : List DeviceInput),
      runCycle true now din
        (⟨some "r1", "RegDev", .throws, true⟩ :: rest) = ([], [], din)) :=
  ⟨fun _ _ _ => rfl, fun _ _ _ => rfl⟩

/-! ## C3: the governance flag and the logging gate -/

/-- C3: `din_rail_is_on` starts `True`; a governing-device snapshot whose
data has a `switch` entry overwrites it with that value, and no other
device's processing writes it; a dependent device logs exactly when the
flag is truthy, any other non-governing device always logs; and in the
concrete two-cycle scenario the governing `switch = false` suppresses the
dependent's insert in that cycle while `switch = true` in the next cycle
restores both inserts. -/
theorem C3_governance_gate :
    din_rail_is_on_init = Scalar.bool true ∧
    (∀ (data : List (String × Scalar)) (din : Scalar) (b : Bool),
      dictGet data "switch" = some (.bool b) →
      updateDin GOV_NAME data din = .bool b) ∧
    (∀ (name : String) (data : List (String × Scalar)) (din : Scalar),
      name ≠ GOV_NAME → updateDin name data din = din) ∧
    (∀ din : Scalar, shouldLog DEP_NAME din = din.pyTruthy) ∧
    (∀ (name : String) (din : Scalar),
      name ≠ GOV_NAME → name ≠ DEP_NAME → shouldLog name din = true) ∧
    (runCycles true 0 din_rail_is_on_init
        [[⟨some "g1", GOV_NAME, .ok [some ⟨"switch", .bool false⟩] 0,
            true⟩,
          ⟨some "d1", DEP_NAME, .ok [some ⟨"switch_1", .bool true⟩] 0,
            true⟩],
         [⟨some "g1", GOV_NAME, .ok [some ⟨"switch", .bool true⟩] 0,
            true⟩,
          ⟨some "d1", DEP_NAME, .ok [some ⟨"switch_1", .bool true⟩] 0,
            true⟩]]).1.map Prod.snd =
      [[],
       [⟨"g1", GOV_NAME, [("switch", Scalar.bool true)]⟩,
        ⟨"d1", DEP_NAME, [("switch_1", Scalar.bool true)]⟩]] := by
  refine ⟨rfl, ?_, ?_, ?_, ?_, by decide⟩
  · intro data din b hget
    simp [updateDin, hget]
  · intro name data din hname
    simp [updateDin, hname]
  · intro din
    rw [shouldLog, if_neg (by decide), if_pos rfl]
  · intro name din h1 h2
    simp [shouldLog, h1, h2]

/-- Witness for C3 at concrete inputs: a governing snapshot with
`switch = false` turns the flag off; a non-governing device leaves it
unchanged; an unrelated device always logs. -/
theorem C3_governance_gate_witness :
    updateDin GOV_NAME [("switch", Scalar.bool false)] din_rail_is_on_init =
      Scalar.bool false ∧
    updateDin "Other" [("switch", Scalar.bool false)] din_rail_is_on_init =
      din_rail_is_on_init ∧
    shouldLog "Other" (Scalar.bool false) = true :=
  ⟨C3_governance_gate.2.1 _ _ false rfl,
   C3_governance_gate.2.2.1 "Other" _ _ (by decide),
   C3_governance_gate.2.2.2.2.1 "Other" _ (by decide) (by decide)⟩

/-! ## C4: governing-before-dependent ordering -/

/-- C4 counterexample: the poller iterates the registry list order with
no reordering, so when the dependent device precedes the governing one,
the dependent's gate is evaluated against the stale (still-true) flag
and its document is inserted even though the same cycle's governing
snapshot reports `switch = false`; with the governing device first, the
insert is suppressed.  The claimed ordering therefore does not hold for
every device list the registry may return. -/
theorem C4_counterexample :
    (runCycle true 0 din_rail_is_on_init
      [⟨some "d1", DEP_NAME, .ok [some ⟨"switch_1", .bool true⟩] 0, true⟩,
       ⟨some "g1", GOV_NAME, .ok [some ⟨"switch", .bool false⟩] 0,
        true⟩]).2.1 =
      [⟨"d1", DEP_NAME, [("switch_1", Scalar.bool true)]⟩] ∧
    (runCycle true 0 din_rail_is_on_init
      [⟨some "g1", GOV_NAME, .ok [some ⟨"switch", .bool false⟩] 0, true⟩,
       ⟨some "d1", DEP_NAME, .ok [some ⟨"switch_1", .bool true⟩] 0,
        true⟩]).2.1 = [] := by
  refine ⟨by decide, by decide⟩

/-- C4 amended: the ordering holds exactly when the registry list order
puts the governing device before the dependents: if the governing device
is first in the cycle and reports `switch = false`, then no dependent
device anywhere later in that cycle is logged, whatever the rest of the
list is (as long as no further governing-named entry re-enables the
flag). -/
theorem C4_amended_ordering (now : ℤ) (din : Scalar) (gid : String)
    (hgid : gid ≠ "") (t : ℚ) (iok : Bool) (rest : List DeviceInput)
    (hrest : ∀ d ∈ rest, d.name ≠ GOV_NAME) :
    ∀ doc ∈ (runCycle true now din
        (⟨some gid, GOV_NAME, .ok [some ⟨"switch", .bool false⟩] t,
          iok⟩ :: rest)).2.1,
      doc.device_name ≠ DEP_NAME := by
  intro doc hdoc
  rw [runCycle_cons_ok true now din gid GOV_NAME
    [some ⟨"switch", Scalar.bool false⟩] t iok rest hgid] at hdoc
  have hdocs : (handleGood true now din gid GOV_NAME
      [some ⟨"switch", Scalar.bool false⟩] t iok).2.1 = [] := by
    rw [handleGood_docs]
    rfl
  have hdin' : (handleGood true now din gid GOV_NAME
      [some ⟨"switch", Scalar.bool false⟩] t iok).2.2 =
      Scalar.bool false := rfl
  rw [hdocs, hdin'] at hdoc
  exact runCycle_no_dep now rest (Scalar.bool false) rfl hrest doc
    (by simpa using hdoc)

/-- Witness for C4 amended: with the governing device first and off, the
dependent device's would-be document is not inserted. -/
theorem C4_amended_ordering_witness :
    (⟨"d1", DEP_NAME, [("switch_1", Scalar.bool true)]⟩ : Doc) ∉
      (runCycle true 0 din_rail_is_on_init
        [⟨some "g1", GOV_NAME, .ok [some ⟨"switch", .bool false⟩] 0, true⟩,
         ⟨some "d1", DEP_NAME, .ok [some ⟨"switch_1", .bool true⟩] 0,
          true⟩]).2.1 :=
  fun hmem =>
    C4_amended_ordering 0 din_rail_is_on_init "g1" (by decide) 0 true
      [⟨some "d1", DEP_NAME, .ok [some ⟨"switch_1", .bool true⟩] 0, true⟩]
      (by decide) _ hmem rfl

/-! ## C9: behaviour when the persistence sink is unavailable -/

/-- C9: with the collection handle absent (`collection is None`), every
poll cycle inserts nothing, the governance flag is never written (it
stays at its startup value `True` for the whole run), and the per-code,
telemetry and discovery publishes of every cycle are exactly those of
the same run with the sink available. -/
theorem C9_sink_unavailable (now : ℤ)
    (cycles : List (List DeviceInput)) :
    (runCycles false now din_rail_is_on_init cycles).2 =
      din_rail_is_on_init ∧
    (runCycles false now din_rail_is_on_init cycles).1.map Prod.snd =
      cycles.map (fun _ => ([] : List Doc)) ∧
    (runCycles false now din_rail_is_on_init cycles).1.map Prod.fst =
      (runCycles true now din_rail_is_on_init cycles).1.map Prod.fst :=
  ⟨runCycles_false_snd now cycles din_rail_is_on_init,
   runCycles_false_docs now cycles din_rail_is_on_init,
   runCycles_fst now cycles false true din_rail_is_on_init
     din_rail_is_on_init⟩

/-! ## C10: skip guards in the polling loop -/

/-- C10: a device entry with a missing id, and a device whose `getstatus`
response is not a dict containing `'result'`, are skipped silently for
the cycle — no publish, no insert, no governance update — and the cycle
continues with the remaining devices exactly as if the entry were
absent. -/
theorem C10_device_skip_guards (h : Bool) (now : ℤ) (din : Scalar)
    (d : DeviceInput) (rest : List DeviceInput)
    (hskip : d.id = none ∨ d.status = GetStatusOutcome.malformed) :
    runCycle h now din (d :: rest) = runCycle h now din rest := by
  obtain ⟨id, name, status, ok⟩ := d
  rcases hskip with hid | hst
  · simp only at hid
    subst hid
    simp [runCycle]
  · simp only at hst
    subst hst
    cases id with
    | none => simp [runCycle]
    | some i =>
      by_cases hi : i = ""
      · simp [runCycle, hi]
      · simp [runCycle, hi]

/-- Witness for C10: a missing-id entry and a malformed-response entry
both leave the cycle output unchanged. -/
theorem C10_device_skip_guards_witness :
    runCycle true 0 din_rail_is_on_init
        (⟨none, "X", .ok [some ⟨"switch", .bool true⟩] 0, true⟩ ::
          [⟨some "d2", "Other", .ok [some ⟨"switch", .bool true⟩] 0,
            true⟩]) =
      runCycle true 0 din_rail_is_on_init
        [⟨some "d2", "Other", .ok [some ⟨"switch", .bool true⟩] 0,
          true⟩] ∧
    runCycle true 0 din_rail_is_on_init
        (⟨some "m1", "Y", .malformed, true⟩ :: []) =
      runCycle true 0 din_rail_is_on_init [] :=
  ⟨C10_device_skip_guards true 0 din_rail_is_on_init _ _ (Or.inl rfl),
   C10_device_skip_guards true 0 din_rail_is_on_init _ _ (Or.inr rfl)⟩

end TuyaBridge
